import Mathlib

/-!
Verification development for the `bevy_edge_detection` crate: a shallow
embedding of the runtime machinery in `src/lib.rs` (configuration record,
per-frame uniform snapshot, pipeline-variant key and specialization, the
extraction system, and the render-graph node), together with models of the
external pieces the crate depends on where the spec describes them
(the ping-pong view target, the specialized-pipeline cache, the fullscreen
vertex state, and the WGSL edge-detection kernel).

Machine floats appear in the source only as values that are copied, compared
for the fixed constants, or fed to the shader; no claim below depends on
float rounding, so scalars are embedded as rationals.
-/

namespace BevyEdgeDetection

/-- Scalar type standing for the f32 values of the source; every operation the
claims touch is a copy, so exact rationals are a faithful carrier. -/
abbrev F32 := Rat

/-- 2D vector (bevy Vec2), used by the spec-level configuration record. -/
structure Vec2 where
  x : F32
  y : F32
deriving DecidableEq, Repr

/-- Linear-space RGBA color (bevy LinearRgba). -/
structure LinearRgba where
  red : F32
  green : F32
  blue : F32
  alpha : F32
deriving DecidableEq, Repr

/-- Bevy Color is an external enum of color spaces whose only use in this
crate is the conversion `Color -> LinearRgba` (the `.into()` call in the
`From<&EdgeDetection> for EdgeDetectionUniform` impl).  It is embedded by the
image of that conversion. -/
structure Color where
  intoLinearRgba : LinearRgba
deriving DecidableEq, Repr

/-- bevy Color::BLACK, whose linear image is (0, 0, 0, 1). -/
def Color.BLACK : Color := ⟨⟨0, 0, 0, 1⟩⟩

/-- Multisample setting of a view (bevy Msaa). -/
inductive Msaa where
  | off
  | sample2
  | sample4
  | sample8
deriving DecidableEq, Repr, BEq

/-- The user-facing configuration component, transcribed field-for-field from
`EdgeDetection` in src/lib.rs (lines 283-317). -/
structure EdgeDetection where
  depth_threshold : F32
  normal_threshold : F32
  color_threshold : F32
  steep_angle_threshold : F32
  edge_color : Color
  enable_depth : Bool
  enable_normal : Bool
  enable_color : Bool
deriving DecidableEq, Repr

/-- The `Default` impl for `EdgeDetection` in src/lib.rs (lines 319-335). -/
def EdgeDetection.default : EdgeDetection :=
  { depth_threshold := 1
    normal_threshold := 8 / 10
    color_threshold := 0
    edge_color := Color.BLACK
    steep_angle_threshold := 1 / 2
    enable_depth := true
    enable_normal := true
    enable_color := true }

/-- The exact list of field names of the `EdgeDetection` struct as declared in
src/lib.rs, in declaration order. -/
def EdgeDetection.fieldNames : List String :=
  ["depth_threshold", "normal_threshold", "color_threshold",
   "steep_angle_threshold", "edge_color",
   "enable_depth", "enable_normal", "enable_color"]

/-- The fields of `EdgeDetection` that the repository example
examples/simple.rs accesses in its `edge_detection_ui` system. -/
def edgeDetectionUiAccessedFields : List String :=
  ["enable_depth", "depth_threshold",
   "enable_normal", "normal_threshold",
   "enable_color", "color_threshold",
   "depth_thickness", "normal_thickness", "color_thickness",
   "steep_angle_threshold", "steep_angle_multiplier",
   "uv_distortion_frequency", "uv_distortion_strength",
   "edge_color"]

/-- The field list the spec assigns to EffectParameters (section 3). -/
def specEffectParametersFields : List String :=
  ["depth_threshold", "normal_threshold", "color_threshold",
   "steep_angle_threshold", "steep_angle_multiplier",
   "depth_thickness", "normal_thickness", "color_thickness",
   "uv_distortion_frequency", "uv_distortion_strength",
   "edge_color", "enable_depth", "enable_normal", "enable_color"]

/-- The per-frame GPU snapshot, transcribed field-for-field from
`EdgeDetectionUniform` in src/lib.rs (lines 337-344). -/
structure EdgeDetectionUniform where
  depth_threshold : F32
  normal_threshold : F32
  color_threshold : F32
  steep_angle_threshold : F32
  edge_color : LinearRgba
deriving DecidableEq, Repr

/-- The exact list of field names of the `EdgeDetectionUniform` struct as
declared in src/lib.rs, in declaration order. -/
def EdgeDetectionUniform.fieldNames : List String :=
  ["depth_threshold", "normal_threshold", "color_threshold",
   "steep_angle_threshold", "edge_color"]

/-- The `From<&EdgeDetection> for EdgeDetectionUniform` impl in src/lib.rs
(lines 368-378). -/
def EdgeDetectionUniform.ofEdgeDetection (ed : EdgeDetection) : EdgeDetectionUniform :=
  { depth_threshold := ed.depth_threshold
    normal_threshold := ed.normal_threshold
    color_threshold := ed.color_threshold
    steep_angle_threshold := ed.steep_angle_threshold
    edge_color := ed.edge_color.intoLinearRgba }

/-- The pipeline specialization key, transcribed from `EdgeDetectionKey` in
src/lib.rs (lines 252-268). -/
structure EdgeDetectionKey where
  enable_depth : Bool
  enable_normal : Bool
  enable_color : Bool
  hdr : Bool
  multisampled : Bool
deriving DecidableEq, Repr

/-- `EdgeDetectionKey::new` in src/lib.rs (lines 270-281). -/
def EdgeDetectionKey.new (edge_detection : EdgeDetection) (hdr multisampled : Bool) :
    EdgeDetectionKey :=
  { enable_depth := edge_detection.enable_depth
    enable_normal := edge_detection.enable_normal
    enable_color := edge_detection.enable_color
    hdr := hdr
    multisampled := multisampled }

/-- Output texture formats distinguished by `specialize` in src/lib.rs:
`ViewTarget::TEXTURE_FORMAT_HDR` versus `TextureFormat::bevy_default()`. -/
inductive TextureFormat where
  | hdr
  | bevyDefault
deriving DecidableEq, Repr

/-- One color target of the pipeline (wgpu ColorTargetState): the format, the
optional blend state (a unit marker suffices, the source only ever writes
`None`), and whether the write mask is ALL. -/
structure ColorTargetState where
  format : TextureFormat
  blend : Option Unit
  write_mask_all : Bool
deriving DecidableEq, Repr

/-- Vertex stage description: entry point plus the list of vertex buffer
layouts (a unit marker per layout; only emptiness matters here). -/
structure VertexState where
  entry_point : String
  buffers : List Unit
deriving DecidableEq, Repr

/-- Modelled from the spec: `fullscreen_shader_vertex_state()` is bevy library
code, not part of this repository.  Per the spec it is a full-screen triangle
vertex stage with no vertex buffers and no vertex attributes (position derived
from the vertex index). -/
def fullscreen_shader_vertex_state : VertexState :=
  { entry_point := "fullscreen_vertex_shader", buffers := [] }

/-- Fragment stage description from the descriptor built by `specialize`. -/
structure FragmentState where
  shader_defs : List String
  entry_point : String
  targets : List (Option ColorTargetState)
deriving DecidableEq, Repr

/-- The render pipeline descriptor as populated by
`EdgeDetectionPipeline::specialize` in src/lib.rs: the label, which bind group
layout was selected (`bind_group_layout(key.multisampled)` reduces to the
boolean), the vertex and fragment stages, and the depth/stencil state. -/
structure RenderPipelineDescriptor where
  label : Option String
  layout_multisampled : Bool
  vertex : VertexState
  fragment : Option FragmentState
  depth_stencil : Option Unit
deriving DecidableEq, Repr

/-- `EdgeDetectionPipeline::specialize` in src/lib.rs (lines 181-226). -/
def specialize (key : EdgeDetectionKey) : RenderPipelineDescriptor :=
  let targets : List (Option ColorTargetState) :=
    [some { format := if key.hdr then TextureFormat.hdr else TextureFormat.bevyDefault
            blend := none
            write_mask_all := true }]
  let shader_defs : List String :=
    (if key.enable_depth then ["ENABLE_DEPTH"] else []) ++
    (if key.enable_normal then ["ENABLE_NORMAL"] else []) ++
    (if key.enable_color then ["ENABLE_COLOR"] else []) ++
    (if key.multisampled then ["MULTISAMPLED"] else [])
  { label := some "edge_detection: pipeline"
    layout_multisampled := key.multisampled
    vertex := fullscreen_shader_vertex_state
    fragment := some { shader_defs := shader_defs
                       entry_point := "fragment"
                       targets := targets }
    depth_stencil := none }

/-- The shader defines of a descriptor (empty when it has no fragment stage). -/
def RenderPipelineDescriptor.shaderDefs (d : RenderPipelineDescriptor) : List String :=
  match d.fragment with
  | some fs => fs.shader_defs
  | none => []

/-- The fragment entry point of a descriptor, when it has a fragment stage. -/
def RenderPipelineDescriptor.fragmentEntryPoint (d : RenderPipelineDescriptor) :
    Option String :=
  match d.fragment with
  | some fs => some fs.entry_point
  | none => none

/-- The format of the first color target, when present. -/
def RenderPipelineDescriptor.headTargetFormat (d : RenderPipelineDescriptor) :
    Option TextureFormat :=
  match d.fragment with
  | some fs =>
    match fs.targets with
    | some t :: _ => some t.format
    | _ => none
  | none => none

/-- The blend state of the first color target (flattened). -/
def RenderPipelineDescriptor.headTargetBlend (d : RenderPipelineDescriptor) :
    Option Unit :=
  match d.fragment with
  | some fs =>
    match fs.targets with
    | some t :: _ => t.blend
    | _ => none
  | none => none

/-- Modelled from the spec: bevy `SpecializedRenderPipelines`, the pipeline
variant cache, is library code external to this repository.  Per the spec
(section 4.2) it maps a variant key to a compiled pipeline handle, compiling
lazily on first request and caching forever; handles are embedded as the
naturals handed out by a counter. -/
structure SpecializedRenderPipelines where
  entries : List (EdgeDetectionKey × Nat)
  next_id : Nat
deriving DecidableEq, Repr

/-- Association-list lookup for cached pipeline handles. -/
def findHandle (key : EdgeDetectionKey) : List (EdgeDetectionKey × Nat) → Option Nat
  | [] => none
  | (k, v) :: rest => if k = key then some v else findHandle key rest

/-- Modelled from the spec: `get_or_create(key) -> PipelineHandle` of the
variant cache — return the cached handle when the key is known, otherwise
allocate a fresh handle and cache it. -/
def SpecializedRenderPipelines.specialize (c : SpecializedRenderPipelines)
    (key : EdgeDetectionKey) : Nat × SpecializedRenderPipelines :=
  match findHandle key c.entries with
  | some id => (id, c)
  | none => (c.next_id, { entries := (key, c.next_id) :: c.entries
                          next_id := c.next_id + 1 })

/-- The cache the render app starts from: no variant compiled yet. -/
def SpecializedRenderPipelines.empty : SpecializedRenderPipelines :=
  { entries := [], next_id := 0 }

/-- The cache evolves only through `specialize` calls. -/
inductive Evolves : SpecializedRenderPipelines → SpecializedRenderPipelines → Prop where
  | refl (c : SpecializedRenderPipelines) : Evolves c c
  | step (c d : SpecializedRenderPipelines) (k : EdgeDetectionKey) :
      Evolves c d → Evolves c (d.specialize k).2

/-- A cache state reachable from the initial empty cache. -/
def Reachable (c : SpecializedRenderPipelines) : Prop :=
  Evolves SpecializedRenderPipelines.empty c

/-- `prepare_edge_detection_pipelines` in src/lib.rs (lines 232-250): for each
view (entity, hdr flag, EdgeDetection component, Msaa), build the key with
`EdgeDetectionKey::new(ed, view.hdr, msaa != Msaa::Off)`, specialize, and
record the resulting `EdgeDetectionPipelineId` on the entity. -/
def prepare_edge_detection_pipelines (cache : SpecializedRenderPipelines) :
    List (Nat × Bool × EdgeDetection × Msaa) →
    SpecializedRenderPipelines × List (Nat × Nat)
  | [] => (cache, [])
  | (entity, hdr, ed, msaa) :: rest =>
    let multisampled := msaa ≠ Msaa.off
    let r := cache.specialize (EdgeDetectionKey.new ed hdr (decide multisampled))
    let t := prepare_edge_detection_pipelines r.2 rest
    (t.1, (entity, r.1) :: t.2)

/-- The one-time diagnostic emitted by the extraction system when depth
texture sampling is unsupported (src/lib.rs lines 351-356). -/
def depthUnsupportedDiagnostic : String :=
  "Disable edge detection on this platform because depth textures aren't supported correctly"

/-- The panic message of the `expect` in the extraction loop
(src/lib.rs line 361). -/
def entityNotSyncedPanic : String :=
  "Edge Detection entity wasn't synced."

/-- The per-entity loop of `extract_edge_detection_settings`: for each
(render entity, EdgeDetection), `commands.get_entity(entity)` must succeed
(the entity was synced), else the system panics via `expect`; on success the
`EdgeDetectionUniform` converted from the component is inserted.  A panic is
embedded as `Except.error` carrying the panic message; queued command
insertions are discarded on panic, as in bevy. -/
def extractLoop (synced : Nat → Bool) :
    List (Nat × EdgeDetection) → Except String (List (Nat × EdgeDetectionUniform))
  | [] => Except.ok []
  | (entity, ed) :: rest =>
    if synced entity then
      (extractLoop synced rest).map
        (fun l => (entity, EdgeDetectionUniform.ofEdgeDetection ed) :: l)
    else Except.error entityNotSyncedPanic

/-- `EdgeDetectionUniform::extract_edge_detection_settings` in src/lib.rs
(lines 346-365): when `DEPTH_TEXTURE_SAMPLING_SUPPORTED` is false, return
early with the one-time diagnostic and no insertions; otherwise run the
per-entity loop.  Result: inserted uniforms paired with emitted log lines, or
a panic. -/
def extract_edge_detection_settings (supported : Bool) (synced : Nat → Bool)
    (views : List (Nat × EdgeDetection)) :
    Except String (List (Nat × EdgeDetectionUniform) × List String) :=
  if supported then
    (extractLoop synced views).map (fun inserts => (inserts, []))
  else
    Except.ok ([], [depthUnsupportedDiagnostic])

/-- Modelled from the spec: bevy ViewTarget is library code external to this
repository.  Per the spec (section 4.3 step 4 and the ping-pong glossary
entry) it owns two distinct physical color textures, one of which is the
current main texture; texture views are embedded as numeric resource ids. -/
structure ViewTarget where
  texture_a : Nat
  texture_b : Nat
  main_is_a : Bool
deriving DecidableEq, Repr

/-- The pair of views returned by `post_process_write`. -/
structure PostProcessWrite where
  source : Nat
  destination : Nat
deriving DecidableEq, Repr

/-- Modelled from the spec: `ViewTarget::post_process_write` returns the
current main texture as the source and the other texture as the destination,
and flips which texture is the main one. -/
def ViewTarget.post_process_write (vt : ViewTarget) : PostProcessWrite × ViewTarget :=
  ({ source := if vt.main_is_a then vt.texture_a else vt.texture_b
     destination := if vt.main_is_a then vt.texture_b else vt.texture_a },
   { vt with main_is_a := !vt.main_is_a })

/-- A bind group as created in `EdgeDetectionNode::run`: which layout variant
was requested (`bind_group_layout(multisampled)`) and the sequential resource
entries. -/
structure BindGroup where
  layout_multisampled : Bool
  entries : List Nat
deriving DecidableEq, Repr

/-- The GPU commands `EdgeDetectionNode::run` can record.  `beginRenderPass`
carries the color attachment list and the depth/stencil attachment;
`setIndexBuffer` is in the vocabulary to state that the pass never binds an
index buffer. -/
inductive RenderCommand where
  | createBindGroup (bg : BindGroup)
  | beginRenderPass (colorAttachments : List (Option Nat)) (depthStencilAttachment : Option Nat)
  | setRenderPipeline (pipeline : Nat)
  | setBindGroup (index : Nat) (bg : BindGroup) (offsets : List Nat)
  | draw (vertices : Nat × Nat) (instances : Nat × Nat)
  | setIndexBuffer (buffer : Nat)
deriving DecidableEq, Repr

/-- Whether a command is a draw call. -/
def RenderCommand.isDraw : RenderCommand → Bool
  | RenderCommand.draw _ _ => true
  | _ => false

/-- Whether a command binds an index buffer. -/
def RenderCommand.isSetIndexBuffer : RenderCommand → Bool
  | RenderCommand.setIndexBuffer _ => true
  | _ => false

/-- The per-view state `EdgeDetectionNode::run` reads: the view query items
(Msaa, ViewTarget, the optional prepass depth and normal textures, the two
dynamic uniform offsets, the cached pipeline id) and the world resources
(the pipeline cache lookup, the two optional uniform buffer bindings, and the
sampler of the `EdgeDetectionPipeline` resource).  Resources and texture views
are embedded as numeric ids. -/
structure NodeRunState where
  msaa : Msaa
  view_target : ViewTarget
  depth_texture : Option Nat
  normal_texture : Option Nat
  view_uniform_offset : Nat
  ed_uniform_index : Nat
  pipeline_id : Nat
  pipeline_cache : Nat → Option Nat
  view_uniforms_binding : Option Nat
  ed_uniforms_binding : Option Nat
  sampler : Nat

/-- `EdgeDetectionNode::run` in src/lib.rs (lines 397-497): four early
returns (pipeline not yet compiled, missing depth or normal prepass texture,
missing view-uniforms binding, missing effect-uniforms binding) record no
command and return Ok; otherwise acquire the post-process source/destination,
create the bind group fresh, begin the pass on the destination, set pipeline
and bind group (with the two dynamic offsets) and draw vertices 0..3,
instances 0..1.  The function returns the recorded commands and the result. -/
def EdgeDetectionNode.run (s : NodeRunState) :
    List RenderCommand × Except String Unit :=
  match s.pipeline_cache s.pipeline_id with
  | none => ([], Except.ok ())
  | some pipeline =>
    match s.depth_texture, s.normal_texture with
    | some depth_texture, some normal_texture =>
      match s.view_uniforms_binding with
      | none => ([], Except.ok ())
      | some view_uniforms_binding =>
        match s.ed_uniforms_binding with
        | none => ([], Except.ok ())
        | some ed_uniform_binding =>
          let post_process := (s.view_target.post_process_write).1
          let multisampled := s.msaa ≠ Msaa.off
          let bind_group : BindGroup :=
            { layout_multisampled := decide multisampled
              entries := [post_process.source, depth_texture, normal_texture,
                          s.sampler, view_uniforms_binding, ed_uniform_binding] }
          ([RenderCommand.createBindGroup bind_group,
            RenderCommand.beginRenderPass [some post_process.destination] none,
            RenderCommand.setRenderPipeline pipeline,
            RenderCommand.setBindGroup 0 bind_group
              [s.view_uniform_offset, s.ed_uniform_index],
            RenderCommand.draw (0, 3) (0, 1)],
           Except.ok ())
    | _, _ => ([], Except.ok ())

/-- Modelled from the spec: the full shader-side configuration record
(EffectParameters, spec section 3).  The WGSL kernel and the full
configuration record of the repository are not under src; the fields follow
the spec list, which the repository example edits one-for-one. -/
structure EffectParameters where
  depth_threshold : F32
  normal_threshold : F32
  color_threshold : F32
  steep_angle_threshold : F32
  steep_angle_multiplier : F32
  depth_thickness : F32
  normal_thickness : F32
  color_thickness : F32
  uv_distortion_frequency : Vec2
  uv_distortion_strength : Vec2
  edge_color : LinearRgba
  enable_depth : Bool
  enable_normal : Bool
  enable_color : Bool
deriving DecidableEq, Repr

/-- Modelled from the spec: the per-pixel scene data the kernel samples —
the color buffer, the Sobel-style gradient magnitude of each channel at a
pixel (radius already scaled by the channel thickness), and the angle between
view direction and surface normal used by the steep-angle compensation.  The
gradients are data of the frame, so they enter the model as functions of the
sampling coordinate. -/
structure SceneInputs where
  colorAt : Vec2 → LinearRgba
  depthGradientAt : Vec2 → F32
  normalGradientAt : Vec2 → F32
  colorGradientAt : Vec2 → F32
  viewNormalAngleAt : Vec2 → F32

/-- Modelled from the spec: the UV distortion of section 4.4 —
uv + uv_distortion_strength * sin(uv * uv_distortion_frequency),
component-wise, gated on the strength being non-zero; the sine primitive is a
parameter of the model. -/
def distortUV (sine : F32 → F32) (p : EffectParameters) (uv : Vec2) : Vec2 :=
  if p.uv_distortion_strength = ⟨0, 0⟩ then uv
  else
    { x := uv.x + p.uv_distortion_strength.x * sine (uv.x * p.uv_distortion_frequency.x)
      y := uv.y + p.uv_distortion_strength.y * sine (uv.y * p.uv_distortion_frequency.y) }

/-- Modelled from the spec: the steep-angle compensation of section 4.4 —
when the view/normal angle exceeds steep_angle_threshold, the raw depth
gradient is scaled down by steep_angle_multiplier before thresholding. -/
def effectiveDepthGradient (p : EffectParameters) (angle rawGradient : F32) : F32 :=
  if p.steep_angle_threshold < angle then rawGradient * p.steep_angle_multiplier
  else rawGradient

/-- Modelled from the spec: the edge classification of section 4.4 — a pixel
is an edge iff ANY enabled channel exceeds its threshold; a disabled channel
never contributes. -/
def isEdge (sine : F32 → F32) (p : EffectParameters) (scene : SceneInputs)
    (uv : Vec2) : Bool :=
  let uvd := distortUV sine p uv
  (p.enable_depth &&
    decide (p.depth_threshold <
      effectiveDepthGradient p (scene.viewNormalAngleAt uvd) (scene.depthGradientAt uvd))) ||
  (p.enable_normal && decide (p.normal_threshold < scene.normalGradientAt uvd)) ||
  (p.enable_color && decide (p.color_threshold < scene.colorGradientAt uvd))

/-- Modelled from the spec: the kernel output of section 4.4 — the edge color
(opaque) when the pixel is classified as an edge, otherwise the original
color sample at the distorted coordinate, unchanged. -/
def kernel (sine : F32 → F32) (p : EffectParameters) (scene : SceneInputs)
    (uv : Vec2) : LinearRgba :=
  if isEdge sine p scene uv then
    { red := p.edge_color.red, green := p.edge_color.green
      blue := p.edge_color.blue, alpha := 1 }
  else scene.colorAt (distortUV sine p uv)

/-- A concrete view target with two distinct textures, for witnesses. -/
def sampleViewTarget : ViewTarget :=
  { texture_a := 10, texture_b := 11, main_is_a := true }

/-- A concrete node state in which every resource is present. -/
def sampleRunState : NodeRunState :=
  { msaa := Msaa.off
    view_target := sampleViewTarget
    depth_texture := some 2
    normal_texture := some 3
    view_uniform_offset := 0
    ed_uniform_index := 0
    pipeline_id := 7
    pipeline_cache := fun i => if i = 7 then some 42 else none
    view_uniforms_binding := some 4
    ed_uniforms_binding := some 5
    sampler := 6 }

/-- The same node state before the pipeline variant has compiled. -/
def sampleRunStateNoPipeline : NodeRunState :=
  { sampleRunState with pipeline_cache := fun _ => none }

/-- A concrete variant key with all channels on, for witnesses. -/
def keyAllOn : EdgeDetectionKey :=
  { enable_depth := true, enable_normal := true, enable_color := true
    hdr := false, multisampled := false }

/-- A concrete variant key with all channels off, for witnesses. -/
def keyAllOff : EdgeDetectionKey :=
  { enable_depth := false, enable_normal := false, enable_color := false
    hdr := false, multisampled := false }

/-- A concrete configuration with every channel disabled and zero
distortion strength, for witnesses. -/
def passThroughParameters : EffectParameters :=
  { depth_threshold := 1
    normal_threshold := 8 / 10
    color_threshold := 0
    steep_angle_threshold := 1 / 2
    steep_angle_multiplier := 1 / 2
    depth_thickness := 1
    normal_thickness := 1
    color_thickness := 1
    uv_distortion_frequency := ⟨1, 1⟩
    uv_distortion_strength := ⟨0, 0⟩
    edge_color := ⟨0, 0, 0, 1⟩
    enable_depth := false
    enable_normal := false
    enable_color := false }

/-- A concrete scene with a uniform mid-gray color buffer and no gradients,
for witnesses. -/
def constantScene : SceneInputs :=
  { colorAt := fun _ => ⟨1 / 2, 1 / 2, 1 / 2, 1⟩
    depthGradientAt := fun _ => 0
    normalGradientAt := fun _ => 0
    colorGradientAt := fun _ => 0
    viewNormalAngleAt := fun _ => 0 }

/-! Helper lemmas shared by several claims. -/

/-- Every branch of the node returns Ok: the four early returns and the
success path alike. -/
theorem run_returns_ok (s : NodeRunState) :
    (EdgeDetectionNode.run s).2 = Except.ok () := by
  unfold EdgeDetectionNode.run
  rcases h1 : s.pipeline_cache s.pipeline_id with _ | p <;>
    rcases h2 : s.depth_texture with _ | d <;>
    rcases h3 : s.normal_texture with _ | n <;>
    rcases h4 : s.view_uniforms_binding with _ | vb <;>
    rcases h5 : s.ed_uniforms_binding with _ | eb <;>
    simp

/-- When every queried entity is synced, the extraction loop completes and
inserts one converted uniform per entity, in order. -/
theorem extractLoop_all_synced (synced : Nat → Bool) :
    ∀ views : List (Nat × EdgeDetection),
      (∀ v ∈ views, synced v.1 = true) →
      extractLoop synced views =
        Except.ok (views.map (fun v => (v.1, EdgeDetectionUniform.ofEdgeDetection v.2)))
  | [], _ => rfl
  | (entity, ed) :: rest, h => by
    have he : synced entity = true := h (entity, ed) (List.mem_cons_self _ _)
    have ih := extractLoop_all_synced synced rest
      (fun v hv => h v (List.mem_cons_of_mem _ hv))
    simp [extractLoop, he, ih, Except.map]

/-- The preparation system emits one pipeline id per queried view. -/
theorem prepare_length (cache : SpecializedRenderPipelines) :
    ∀ pviews : List (Nat × Bool × EdgeDetection × Msaa),
      (prepare_edge_detection_pipelines cache pviews).2.length = pviews.length
  | [] => rfl
  | (entity, hdr, ed, msaa) :: rest => by
    simp [prepare_edge_detection_pipelines, prepare_length]

/-! Claim theorems. -/

/-- C1: the claim lists depth_thickness, normal_thickness, color_thickness,
steep_angle_multiplier, uv_distortion_frequency and uv_distortion_strength
among the fields of the EdgeDetection record; the spec and the repository
example UI agree, but the EdgeDetection struct declared in src/lib.rs carries
none of them, so the example cannot even compile against this source. -/
theorem edgeDetection_lacks_spec_fields :
    "depth_thickness" ∈ edgeDetectionUiAccessedFields ∧
    "depth_thickness" ∈ specEffectParametersFields ∧
    "depth_thickness" ∉ EdgeDetection.fieldNames ∧
    "steep_angle_multiplier" ∉ EdgeDetection.fieldNames ∧
    "uv_distortion_frequency" ∉ EdgeDetection.fieldNames ∧
    ¬ (∀ f ∈ specEffectParametersFields, f ∈ EdgeDetection.fieldNames) := by
  decide

/-- C2 (counterexample): the claim requires the snapshot to carry a
steep_angle_multiplier equal to the corresponding EdgeDetection field, but
neither EdgeDetectionUniform nor EdgeDetection declares such a field. -/
theorem uniform_lacks_steep_angle_multiplier :
    "steep_angle_multiplier" ∉ EdgeDetectionUniform.fieldNames ∧
    "steep_angle_multiplier" ∉ EdgeDetection.fieldNames := by
  decide

/-- C2 (amended): the per-frame snapshot copies depth_threshold,
normal_threshold, color_threshold and steep_angle_threshold exactly from the
EdgeDetection value, and its edge_color is the EdgeDetection edge_color
converted to linear RGB. -/
theorem uniform_copies_shader_subset (ed : EdgeDetection) :
    (EdgeDetectionUniform.ofEdgeDetection ed).depth_threshold = ed.depth_threshold ∧
    (EdgeDetectionUniform.ofEdgeDetection ed).normal_threshold = ed.normal_threshold ∧
    (EdgeDetectionUniform.ofEdgeDetection ed).color_threshold = ed.color_threshold ∧
    (EdgeDetectionUniform.ofEdgeDetection ed).steep_angle_threshold = ed.steep_angle_threshold ∧
    (EdgeDetectionUniform.ofEdgeDetection ed).edge_color = ed.edge_color.intoLinearRgba :=
  ⟨rfl, rfl, rfl, rfl, rfl⟩

/-- C3 (counterexample): the extraction system panics (the expect on
commands.get_entity) in any state holding an EdgeDetection whose render
entity is not synced, so the core does not complete without panicking for
every input state. -/
theorem extraction_panics_on_unsynced_entity :
    extract_edge_detection_settings true (fun _ => false) [(0, EdgeDetection.default)] =
      Except.error entityNotSyncedPanic := by
  rfl

/-- C3 (amended): provided every extracted entity is synced (the invariant
SyncComponentPlugin maintains), no operation of the core panics: extraction
returns normally, pipeline preparation produces a pipeline id for every view,
and the node returns Ok on every path. -/
theorem core_no_panic_when_synced (supported : Bool) (synced : Nat → Bool)
    (views : List (Nat × EdgeDetection))
    (h : ∀ v ∈ views, synced v.1 = true) :
    (∃ r, extract_edge_detection_settings supported synced views = Except.ok r) ∧
    (∀ cache pviews,
      (prepare_edge_detection_pipelines cache pviews).2.length = pviews.length) ∧
    (∀ s, (EdgeDetectionNode.run s).2 = Except.ok ()) := by
  refine ⟨?_, fun cache pviews => prepare_length cache pviews, fun s => run_returns_ok s⟩
  cases supported with
  | false => exact ⟨([], [depthUnsupportedDiagnostic]), rfl⟩
  | true =>
    refine ⟨(views.map (fun v => (v.1, EdgeDetectionUniform.ofEdgeDetection v.2)), []), ?_⟩
    simp [extract_edge_detection_settings, extractLoop_all_synced synced views h,
      Except.map]

/-- C3 witness. -/
theorem core_no_panic_when_synced_witness :
    (∃ r, extract_edge_detection_settings true (fun _ => true)
      [(0, EdgeDetection.default)] = Except.ok r) ∧
    (∀ cache pviews,
      (prepare_edge_detection_pipelines cache pviews).2.length = pviews.length) ∧
    (∀ s, (EdgeDetectionNode.run s).2 = Except.ok ()) :=
  core_no_panic_when_synced true (fun _ => true) [(0, EdgeDetection.default)]
    (fun _ _ => rfl)

/-- C4: whenever the pipeline is not yet compiled, a prepass texture is
absent, or a uniform binding is unavailable, the node records no command at
all (in particular no draw), and on every path it returns Ok. -/
theorem run_silent_skip (s : NodeRunState) :
    (EdgeDetectionNode.run s).2 = Except.ok () ∧
    ((s.pipeline_cache s.pipeline_id = none ∨ s.depth_texture = none ∨
      s.normal_texture = none ∨ s.view_uniforms_binding = none ∨
      s.ed_uniforms_binding = none) →
      (EdgeDetectionNode.run s).1 = []) := by
  refine ⟨run_returns_ok s, fun h => ?_⟩
  rcases h1 : s.pipeline_cache s.pipeline_id with _ | p <;>
    rcases h2 : s.depth_texture with _ | d <;>
    rcases h3 : s.normal_texture with _ | n <;>
    rcases h4 : s.view_uniforms_binding with _ | vb <;>
    rcases h5 : s.ed_uniforms_binding with _ | eb <;>
    simp_all [EdgeDetectionNode.run]

/-- C4 witness. -/
theorem run_silent_skip_witness :
    (EdgeDetectionNode.run sampleRunStateNoPipeline).2 = Except.ok () ∧
    (EdgeDetectionNode.run sampleRunStateNoPipeline).1 = [] :=
  ⟨(run_silent_skip sampleRunStateNoPipeline).1,
   (run_silent_skip sampleRunStateNoPipeline).2 (Or.inl rfl)⟩

/-- A found handle really is an entry of the cache. -/
theorem findHandle_mem (key : EdgeDetectionKey) :
    ∀ entries : List (EdgeDetectionKey × Nat), ∀ v : Nat,
      findHandle key entries = some v → (key, v) ∈ entries
  | [], _, h => by simp [findHandle] at h
  | (k, w) :: rest, v, h => by
    by_cases hk : k = key
    · subst hk
      simp [findHandle] at h
      subst h
      exact List.mem_cons_self _ _
    · have := findHandle_mem key rest v (by simpa [findHandle, hk] using h)
      exact List.mem_cons_of_mem _ this

/-- One specialize call never forgets an already-cached handle. -/
theorem specialize_preserves_found (c : SpecializedRenderPipelines)
    (k k0 : EdgeDetectionKey) (v : Nat)
    (h : findHandle k0 c.entries = some v) :
    findHandle k0 ((c.specialize k).2).entries = some v := by
  unfold SpecializedRenderPipelines.specialize
  rcases hf : findHandle k c.entries with _ | w
  · by_cases hk : k = k0
    · subst hk
      rw [hf] at h
      cases h
    · simpa [findHandle, hk] using h
  · simpa using h

/-- Cached handles survive any further evolution of the cache. -/
theorem evolves_preserves_found (c d : SpecializedRenderPipelines)
    (he : Evolves c d) (k0 : EdgeDetectionKey) (v : Nat)
    (h : findHandle k0 c.entries = some v) :
    findHandle k0 d.entries = some v := by
  induction he with
  | refl => exact h
  | step d k hcd ih => exact specialize_preserves_found d k k0 v ih

/-- Right after specializing a key, the cache holds its handle. -/
theorem specialize_caches (c : SpecializedRenderPipelines) (k : EdgeDetectionKey) :
    findHandle k ((c.specialize k).2).entries = some (c.specialize k).1 := by
  unfold SpecializedRenderPipelines.specialize
  rcases hf : findHandle k c.entries with _ | w
  · simp [findHandle]
  · simpa using hf

/-- Specializing a key whose handle is cached returns that handle. -/
theorem specialize_found (d : SpecializedRenderPipelines) (k : EdgeDetectionKey)
    (v : Nat) (h : findHandle k d.entries = some v) : (d.specialize k).1 = v := by
  unfold SpecializedRenderPipelines.specialize
  rw [h]

/-- Specializing an unknown key hands out the counter value. -/
theorem specialize_fresh (d : SpecializedRenderPipelines) (k : EdgeDetectionKey)
    (h : findHandle k d.entries = none) : (d.specialize k).1 = d.next_id := by
  unfold SpecializedRenderPipelines.specialize
  rw [h]

/-- The cache invariant: every handle is below the counter, and entries are
keyed injectively in both directions. -/
def CacheInv (c : SpecializedRenderPipelines) : Prop :=
  (∀ kv ∈ c.entries, kv.2 < c.next_id) ∧
  (∀ kv ∈ c.entries, ∀ kv2 ∈ c.entries, kv.2 = kv2.2 → kv.1 = kv2.1)

/-- The cache invariant is preserved by one specialize call. -/
theorem cacheInv_specialize (c : SpecializedRenderPipelines) (k : EdgeDetectionKey)
    (h : CacheInv c) : CacheInv ((c.specialize k).2) := by
  obtain ⟨hb, hi⟩ := h
  unfold SpecializedRenderPipelines.specialize
  rcases hf : findHandle k c.entries with _ | w
  · constructor
    · intro kv hkv
      rcases List.mem_cons.mp hkv with h1 | h1
      · subst h1
        exact Nat.lt_succ_self _
      · exact Nat.lt_succ_of_lt (hb kv h1)
    · intro kv hkv kv2 hkv2 heq
      rcases List.mem_cons.mp hkv with h1 | h1 <;>
        rcases List.mem_cons.mp hkv2 with h2 | h2
      · rw [h1, h2]
      · subst h1
        exact absurd (heq ▸ hb kv2 h2) (Nat.lt_irrefl _)
      · subst h2
        exact absurd (heq ▸ hb kv h1) (Nat.lt_irrefl _)
      · exact hi kv h1 kv2 h2 heq
  · exact ⟨hb, hi⟩

/-- The cache invariant holds along any evolution from an invariant state. -/
theorem cacheInv_evolves (c d : SpecializedRenderPipelines)
    (he : Evolves c d) (h : CacheInv c) : CacheInv d := by
  induction he with
  | refl => exact h
  | step d k hcd ih => exact cacheInv_specialize d k ih

/-- Every reachable cache state satisfies the invariant. -/
theorem cacheInv_reachable (c : SpecializedRenderPipelines) (h : Reachable c) :
    CacheInv c :=
  cacheInv_evolves SpecializedRenderPipelines.empty c h
    ⟨fun _ hkv => absurd hkv (List.not_mem_nil _), fun _ hkv => absurd hkv (List.not_mem_nil _)⟩

/-- C5: the variant key copies exactly the three channel toggles of the view
EdgeDetection plus the HDR flag and the multisample flag; asking the cache for
the same key after any further evolution yields the same handle, and asking a
reachable cache for two distinct keys yields distinct handles. -/
theorem variant_key_and_cache_determinism :
    (∀ (ed : EdgeDetection) (hdr multisampled : Bool),
      EdgeDetectionKey.new ed hdr multisampled =
      { enable_depth := ed.enable_depth, enable_normal := ed.enable_normal
        enable_color := ed.enable_color, hdr := hdr, multisampled := multisampled }) ∧
    (∀ (c d : SpecializedRenderPipelines) (k : EdgeDetectionKey),
      Evolves (c.specialize k).2 d →
      (d.specialize k).1 = (c.specialize k).1) ∧
    (∀ c, Reachable c → ∀ k1 k2, k1 ≠ k2 →
      (((c.specialize k1).2).specialize k2).1 ≠ (c.specialize k1).1) := by
  refine ⟨fun ed hdr multisampled => rfl, ?_, ?_⟩
  · intro c d k he
    have h1 := specialize_caches c k
    have h2 := evolves_preserves_found _ d he k _ h1
    exact specialize_found d k _ h2
  · intro c hc k1 k2 hne
    have hinv : CacheInv ((c.specialize k1).2) :=
      cacheInv_specialize c k1 (cacheInv_reachable c hc)
    have hk1 : findHandle k1 ((c.specialize k1).2).entries = some (c.specialize k1).1 :=
      specialize_caches c k1
    have hmem1 : (k1, (c.specialize k1).1) ∈ ((c.specialize k1).2).entries :=
      findHandle_mem _ _ _ hk1
    rcases hf : findHandle k2 ((c.specialize k1).2).entries with _ | w
    · rw [specialize_fresh _ _ hf]
      intro heq
      exact absurd (heq ▸ hinv.1 _ hmem1) (Nat.lt_irrefl _)
    · rw [specialize_found _ _ _ hf]
      have hmem2 : (k2, w) ∈ ((c.specialize k1).2).entries := findHandle_mem _ _ _ hf
      intro heq
      exact hne ((hinv.2 _ hmem2 _ hmem1 heq).symm)

/-- C5 witness. -/
theorem variant_key_and_cache_determinism_witness :
    ((SpecializedRenderPipelines.empty.specialize keyAllOn).2.specialize keyAllOn).1 =
      (SpecializedRenderPipelines.empty.specialize keyAllOn).1 ∧
    ((SpecializedRenderPipelines.empty.specialize keyAllOn).2.specialize keyAllOff).1 ≠
      (SpecializedRenderPipelines.empty.specialize keyAllOn).1 :=
  ⟨variant_key_and_cache_determinism.2.1 SpecializedRenderPipelines.empty
      (SpecializedRenderPipelines.empty.specialize keyAllOn).2 keyAllOn
      (Evolves.refl _),
   variant_key_and_cache_determinism.2.2 SpecializedRenderPipelines.empty
      (Evolves.refl _) keyAllOn keyAllOff (by decide)⟩

/-- C6: the specialized descriptor carries the shader define ENABLE_DEPTH
exactly when the key enables depth (likewise ENABLE_NORMAL, ENABLE_COLOR and
MULTISAMPLED for their flags), its sole color target uses the HDR format
exactly when the key says HDR and the standard default format otherwise, and
its fragment entry point is "fragment". -/
theorem specialize_defines_flags (key : EdgeDetectionKey) :
    (specialize key).shaderDefs.contains "ENABLE_DEPTH" = key.enable_depth ∧
    (specialize key).shaderDefs.contains "ENABLE_NORMAL" = key.enable_normal ∧
    (specialize key).shaderDefs.contains "ENABLE_COLOR" = key.enable_color ∧
    (specialize key).shaderDefs.contains "MULTISAMPLED" = key.multisampled ∧
    (specialize key).headTargetFormat =
      some (if key.hdr then TextureFormat.hdr else TextureFormat.bevyDefault) ∧
    (specialize key).fragmentEntryPoint = some "fragment" := by
  rcases key with ⟨d, n, c, h, m⟩
  cases d <;> cases n <;> cases c <;> cases h <;> cases m <;> decide

/-- C7: with all three channel toggles disabled the kernel classifies no
pixel as an edge and outputs the source color sample unchanged (the sample it
takes at the possibly distorted coordinate); with zero distortion strength
that is the source color at the pixel itself. -/
theorem kernel_pass_through_all_disabled (sine : F32 → F32)
    (p : EffectParameters) (scene : SceneInputs) (uv : Vec2)
    (hd : p.enable_depth = false) (hn : p.enable_normal = false)
    (hc : p.enable_color = false) :
    isEdge sine p scene uv = false ∧
    kernel sine p scene uv = scene.colorAt (distortUV sine p uv) ∧
    (p.uv_distortion_strength = ⟨0, 0⟩ → kernel sine p scene uv = scene.colorAt uv) := by
  have he : isEdge sine p scene uv = false := by
    simp [isEdge, hd, hn, hc]
  refine ⟨he, by simp [kernel, he], fun hs => ?_⟩
  simp [kernel, he, distortUV, hs]

/-- C7 witness. -/
theorem kernel_pass_through_all_disabled_witness :
    isEdge (fun _ => 0) passThroughParameters constantScene ⟨0, 0⟩ = false ∧
    kernel (fun _ => 0) passThroughParameters constantScene ⟨0, 0⟩ =
      constantScene.colorAt (distortUV (fun _ => 0) passThroughParameters ⟨0, 0⟩) ∧
    (passThroughParameters.uv_distortion_strength = ⟨0, 0⟩ →
      kernel (fun _ => 0) passThroughParameters constantScene ⟨0, 0⟩ =
        constantScene.colorAt ⟨0, 0⟩) :=
  kernel_pass_through_all_disabled (fun _ => 0) passThroughParameters constantScene
    ⟨0, 0⟩ rfl rfl rfl

/-- C8 (counterexample): with depth sampling supported but a queried entity
not synced, the extraction panics instead of inserting one uniform per view:
no uniform at all is inserted for either view here. -/
theorem extraction_aborts_without_inserts_when_unsynced :
    extract_edge_detection_settings true (fun e => decide (e = 0))
      [(0, EdgeDetection.default), (1, EdgeDetection.default)] =
      Except.error entityNotSyncedPanic := by
  rfl

/-- C8 (amended): when depth-texture sampling is unsupported, extraction
inserts no snapshot for any view and emits the one-time diagnostic without
raising an error; when it is supported and every queried entity is synced,
extraction inserts exactly one EdgeDetectionUniform per view carrying an
EdgeDetection, namely the converted component, and logs nothing. -/
theorem extraction_snapshot_contract (synced : Nat → Bool)
    (views : List (Nat × EdgeDetection)) :
    extract_edge_detection_settings false synced views =
      Except.ok ([], [depthUnsupportedDiagnostic]) ∧
    ((∀ v ∈ views, synced v.1 = true) →
      extract_edge_detection_settings true synced views =
        Except.ok (views.map (fun v => (v.1, EdgeDetectionUniform.ofEdgeDetection v.2)), [])) := by
  refine ⟨rfl, fun h => ?_⟩
  simp [extract_edge_detection_settings, extractLoop_all_synced synced views h,
    Except.map]

/-- C8 witness. -/
theorem extraction_snapshot_contract_witness :
    extract_edge_detection_settings false (fun _ => true)
      [(3, EdgeDetection.default)] =
      Except.ok ([], [depthUnsupportedDiagnostic]) ∧
    extract_edge_detection_settings true (fun _ => true)
      [(3, EdgeDetection.default)] =
      Except.ok ([(3, EdgeDetectionUniform.ofEdgeDetection EdgeDetection.default)], []) :=
  ⟨(extraction_snapshot_contract (fun _ => true) [(3, EdgeDetection.default)]).1,
   (extraction_snapshot_contract (fun _ => true) [(3, EdgeDetection.default)]).2
     (fun _ _ => rfl)⟩

/-- With every resource present the node records exactly the five commands of
the source: create the bind group, begin the pass on the post-process
destination, set the pipeline, set the bind group with the two dynamic
offsets, and draw vertices 0..3 instances 0..1. -/
theorem run_with_all_resources (s : NodeRunState)
    (pipeline depth normal vb eb : Nat)
    (h1 : s.pipeline_cache s.pipeline_id = some pipeline)
    (h2 : s.depth_texture = some depth)
    (h3 : s.normal_texture = some normal)
    (h4 : s.view_uniforms_binding = some vb)
    (h5 : s.ed_uniforms_binding = some eb) :
    EdgeDetectionNode.run s =
      ([RenderCommand.createBindGroup
          { layout_multisampled := decide (s.msaa ≠ Msaa.off)
            entries := [(s.view_target.post_process_write).1.source, depth, normal,
                        s.sampler, vb, eb] },
        RenderCommand.beginRenderPass
          [some (s.view_target.post_process_write).1.destination] none,
        RenderCommand.setRenderPipeline pipeline,
        RenderCommand.setBindGroup 0
          { layout_multisampled := decide (s.msaa ≠ Msaa.off)
            entries := [(s.view_target.post_process_write).1.source, depth, normal,
                        s.sampler, vb, eb] }
          [s.view_uniform_offset, s.ed_uniform_index],
        RenderCommand.draw (0, 3) (0, 1)], Except.ok ()) := by
  unfold EdgeDetectionNode.run
  rw [h1, h2, h3, h4, h5]

/-- C9: whenever the node reaches the draw, the bind group is created within
that invocation, its first entry is the source view of this invocation's
post-process write, the sole color attachment of the pass is the destination
view of the same post-process write, the source and destination are distinct
views, and the source of the following invocation (after the ping-pong flip)
differs from this one, so the bind group cannot be reused across frames. -/
theorem run_binds_source_targets_destination (s : NodeRunState)
    (pipeline depth normal vb eb : Nat)
    (h1 : s.pipeline_cache s.pipeline_id = some pipeline)
    (h2 : s.depth_texture = some depth)
    (h3 : s.normal_texture = some normal)
    (h4 : s.view_uniforms_binding = some vb)
    (h5 : s.ed_uniforms_binding = some eb)
    (hab : s.view_target.texture_a ≠ s.view_target.texture_b) :
    ∃ bg : BindGroup,
      RenderCommand.createBindGroup bg ∈ (EdgeDetectionNode.run s).1 ∧
      RenderCommand.setBindGroup 0 bg [s.view_uniform_offset, s.ed_uniform_index] ∈
        (EdgeDetectionNode.run s).1 ∧
      bg.entries.head? = some (s.view_target.post_process_write).1.source ∧
      RenderCommand.beginRenderPass
        [some (s.view_target.post_process_write).1.destination] none ∈
        (EdgeDetectionNode.run s).1 ∧
      (∀ atts dsa, RenderCommand.beginRenderPass atts dsa ∈ (EdgeDetectionNode.run s).1 →
        atts = [some (s.view_target.post_process_write).1.destination]) ∧
      (s.view_target.post_process_write).1.source ≠
        (s.view_target.post_process_write).1.destination ∧
      (((s.view_target.post_process_write).2).post_process_write).1.source ≠
        (s.view_target.post_process_write).1.source := by
  have hrun := run_with_all_resources s pipeline depth normal vb eb h1 h2 h3 h4 h5
  refine ⟨{ layout_multisampled := decide (s.msaa ≠ Msaa.off)
            entries := [(s.view_target.post_process_write).1.source, depth, normal,
                        s.sampler, vb, eb] }, ?_, ?_, rfl, ?_, ?_, ?_, ?_⟩
  · simp [hrun]
  · simp [hrun]
  · simp [hrun]
  · intro atts dsa hmem
    rw [hrun] at hmem
    simp at hmem
    exact hmem.1
  · cases hm : s.view_target.main_is_a with
    | false => simpa [ViewTarget.post_process_write, hm] using Ne.symm hab
    | true => simpa [ViewTarget.post_process_write, hm] using hab
  · cases hm : s.view_target.main_is_a with
    | false => simpa [ViewTarget.post_process_write, hm] using hab
    | true => simpa [ViewTarget.post_process_write, hm] using Ne.symm hab

/-- C9 witness. -/
theorem run_binds_source_targets_destination_witness :
    ∃ bg : BindGroup,
      RenderCommand.createBindGroup bg ∈ (EdgeDetectionNode.run sampleRunState).1 ∧
      RenderCommand.setBindGroup 0 bg
        [sampleRunState.view_uniform_offset, sampleRunState.ed_uniform_index] ∈
        (EdgeDetectionNode.run sampleRunState).1 ∧
      bg.entries.head? =
        some (sampleRunState.view_target.post_process_write).1.source ∧
      RenderCommand.beginRenderPass
        [some (sampleRunState.view_target.post_process_write).1.destination] none ∈
        (EdgeDetectionNode.run sampleRunState).1 ∧
      (∀ atts dsa,
        RenderCommand.beginRenderPass atts dsa ∈ (EdgeDetectionNode.run sampleRunState).1 →
        atts = [some (sampleRunState.view_target.post_process_write).1.destination]) ∧
      (sampleRunState.view_target.post_process_write).1.source ≠
        (sampleRunState.view_target.post_process_write).1.destination ∧
      (((sampleRunState.view_target.post_process_write).2).post_process_write).1.source ≠
        (sampleRunState.view_target.post_process_write).1.source :=
  run_binds_source_targets_destination sampleRunState 42 2 3 4 5
    rfl rfl rfl rfl rfl (by decide)

/-- C10: whenever the node reaches the draw it records exactly one draw call,
of vertices 0..3 and instances 0..1 (a three-vertex, one-instance fullscreen
triangle), binds no index buffer, targets the post-process destination view,
and for every variant key the specialized pipeline has no depth/stencil
state, no blend on its color target, and no vertex buffers. -/
theorem run_single_fullscreen_draw (s : NodeRunState)
    (pipeline depth normal vb eb : Nat)
    (h1 : s.pipeline_cache s.pipeline_id = some pipeline)
    (h2 : s.depth_texture = some depth)
    (h3 : s.normal_texture = some normal)
    (h4 : s.view_uniforms_binding = some vb)
    (h5 : s.ed_uniforms_binding = some eb) :
    ((EdgeDetectionNode.run s).1.filter RenderCommand.isDraw) =
      [RenderCommand.draw (0, 3) (0, 1)] ∧
    ((EdgeDetectionNode.run s).1.all fun c => !c.isSetIndexBuffer) = true ∧
    RenderCommand.beginRenderPass
      [some (s.view_target.post_process_write).1.destination] none ∈
      (EdgeDetectionNode.run s).1 ∧
    (∀ key : EdgeDetectionKey,
      (specialize key).depth_stencil = none ∧
      (specialize key).headTargetBlend = none ∧
      (specialize key).vertex.buffers = ([] : List Unit)) := by
  have hrun := run_with_all_resources s pipeline depth normal vb eb h1 h2 h3 h4 h5
  refine ⟨?_, ?_, ?_, fun key => ⟨rfl, rfl, rfl⟩⟩
  · simp [hrun, List.filter, RenderCommand.isDraw]
  · simp [hrun, List.all, RenderCommand.isSetIndexBuffer]
  · simp [hrun]

/-- C10 witness. -/
theorem run_single_fullscreen_draw_witness :
    ((EdgeDetectionNode.run sampleRunState).1.filter RenderCommand.isDraw) =
      [RenderCommand.draw (0, 3) (0, 1)] ∧
    ((EdgeDetectionNode.run sampleRunState).1.all fun c => !c.isSetIndexBuffer) = true ∧
    RenderCommand.beginRenderPass
      [some (sampleRunState.view_target.post_process_write).1.destination] none ∈
      (EdgeDetectionNode.run sampleRunState).1 ∧
    (∀ key : EdgeDetectionKey,
      (specialize key).depth_stencil = none ∧
      (specialize key).headTargetBlend = none ∧
      (specialize key).vertex.buffers = ([] : List Unit)) :=
  run_single_fullscreen_draw sampleRunState 42 2 3 4 5 rfl rfl rfl rfl rfl

end BevyEdgeDetection
